import Mathlib

set_option maxRecDepth 8000

/-!
Verification of the DexAdofm payout settlement pipeline.

The definitions below are a shallow embedding of the TypeScript sources:

* `src/unnamed/part_000` — the worker router (`/payout`, `/balance`, `/me`, …)
  and the settlement queue consumer `process_Queue`;
* `src/backend/src/sss/createShares.ts` and
  `src/backend/src/sss/recoverPrivateKey.ts` — the Shamir secret-sharing layer.

The database (Prisma `worker` and `payouts` tables) is modelled as explicit
state; Prisma interactive transactions become pure state-passing functions.
TypeScript numbers that undergo division are modelled as exact rationals;
stored balances (Prisma `Int` columns) are modelled as integers.
-/

/-- A row of the `worker` table: identity, Solana address, and the pending and
locked balances in internal smallest-denomination units. -/
structure Worker where
  id : Nat
  address : String
  pending_amount : Int
  locked_amount : Int
deriving DecidableEq

/-- Status of a payout record.  `process_Queue` only ever writes `Success`;
the spec additionally names `Pending` and `Failed`. -/
inductive PayoutStatus
  | Pending
  | Success
  | Failed
deriving DecidableEq

/-- A row of the `payouts` table, as created by `process_Queue`. -/
structure Payout where
  worker_id : Nat
  amount : Int
  status : PayoutStatus
  signature : String
deriving DecidableEq

/-- The durable store: the `worker` table and the append-only `payouts` table. -/
structure DB where
  workers : List Worker
  payouts : List Payout
deriving DecidableEq

/-- Model of `prismaClient.worker.findUnique({ where: { id: workerId } })` /
`findFirst({ where: { id } })`: the first row with the given id. -/
def findWorker (db : DB) (workerId : Nat) : Option Worker :=
  db.workers.find? (fun w => w.id == workerId)

/-- Model of `tx.worker.update({ where: { id: workerId }, data: ... })`: rewrite the
rows whose id matches (ids are unique in the real table). -/
def updateWorker (db : DB) (workerId : Nat) (f : Worker → Worker) : DB :=
  { db with workers := db.workers.map (fun w => if w.id == workerId then f w else w) }

/-- Modelled from the spec: the repository's `config` module is not under
`src/`; it defines `TOTAL_DECIMALS`, the "implicit conversion factor between
internal integer units and the network's native unit" (spec section 6).  Its
numeric value is pinned by the lock endpoint's own error message
(`src/unnamed/part_000` line 155), which equates the 3000-unit minimum
withdrawal with 0.03 SOL, so `TOTAL_DECIMALS = 3000 / 0.03 = 100000`.  The
theorems below are parameterised over an arbitrary conversion factor `TD`;
this constant is used only to evaluate concrete scenarios. -/
def TOTAL_DECIMALS : ℚ := 100000

/-- Outcome of `router.post("/payout")`: the 200 response carries the updated
locked balance divided by `TOTAL_DECIMALS`; the two `throw`s inside the
transaction surface as 500 responses. -/
inductive LockResult
  | locked (amountSol : ℚ)
  | notFound
  | insufficientBalance
deriving DecidableEq

/-- Model of `router.post("/payout")` from `src/unnamed/part_000` lines 140–185: inside
a serializable transaction, read the worker (`NotFound` if absent), enforce the
3000-unit minimum (`InsufficientBalance` below it), then decrement
`pending_amount` by the full pending amount, increment `locked_amount` by the
same amount, and return the updated row's `locked_amount / TOTAL_DECIMALS`.
On success the job `{ workerId }` is appended to the payout queue; on either
failure the store and the queue are untouched. -/
def postPayout (TD : ℚ) (db : DB) (queue : List Nat) (workerId : Nat) :
    DB × List Nat × LockResult :=
  match findWorker db workerId with
  | none => (db, queue, .notFound)
  | some w =>
    if w.pending_amount < 3000 then
      (db, queue, .insufficientBalance)
    else
      let amount := w.pending_amount
      let db' := updateWorker db workerId (fun u =>
        { u with
          pending_amount := u.pending_amount - amount,
          locked_amount := u.locked_amount + amount })
      (db', queue ++ [workerId], .locked (((w.locked_amount + amount : Int) : ℚ) / TD))

/-- Result of `recoverPrivateKey`: the returned keypair, or one of its two
`throw`s ("Minimum threshold required" / "Could not recover the private
key, send a valid uint8 array"). -/
inductive Recovered (κ : Type)
  | ok (kp : κ)
  | insufficientShares
  | corruptShare
deriving DecidableEq

/-- Model of `recoverPrivateKey` from `src/backend/src/sss/recoverPrivateKey.ts` lines
19–36: reject the share array if it holds fewer than `THRESHOLD` entries,
otherwise run `sss.combine` followed by `Keypair.fromSecretKey ∘ decode`
(abstracted as the parameter `combineDecode`, `none` standing for the
exceptions caught on lines 30–35). -/
def recoverPrivateKey {σ κ : Type} (THRESHOLD : Nat)
    (combineDecode : List σ → Option κ) (sharesArray : List σ) : Recovered κ :=
  if sharesArray.length < THRESHOLD then
    .insufficientShares
  else
    match combineDecode sharesArray with
    | some kp => .ok kp
    | none => .corruptShare

/-- Outcome of `connection.sendTransaction`: a signature, or a thrown error. -/
inductive SendOutcome
  | ok (sig : String)
  | err (msg : String)
deriving DecidableEq

/-- A transfer instruction handed to `connection.sendTransaction`:
recipient address and the lamport amount of the `SystemProgram.transfer`. -/
structure Transfer where
  toAddress : String
  lamports : ℚ
deriving DecidableEq

/-- The external world one `process_Queue` run interacts with: whether
`PARENT_WALLET_PUBLIC_KEY` is configured, the share fetch result, the
configured `THRESHOLD`, the combine-and-decode step of the key recovery, and
the outcome of the Solana submission. -/
structure Env where
  parentKeySet : Bool
  threshold : Nat
  fetched : List (List Int)
  combineDecode : List (List Int) → Option Unit
  send : SendOutcome

/-- Model of `process_Queue` from `src/unnamed/part_000` lines 27–102: inside a
transaction, read the worker; inside `try`, fail if the worker or the parent
key is missing, build a transfer of
`1000_000_000 * worker.locked_amount / TOTAL_DECIMALS` lamports to the
worker's address, recover the keypair from the fetched shares, and submit.
Any `throw` is caught (line 76): the catch block only logs and returns, so the
transaction commits no writes.  After a successful submission the worker's
`locked_amount` is decremented by the amount read at the start and a
`Success` payout record carrying the signature is appended.  The second
component of the result lists the submissions actually attempted. -/
def process_Queue (TD : ℚ) (env : Env) (db : DB) (workerId : Nat) :
    DB × List Transfer :=
  match findWorker db workerId with
  | none => (db, [])
  | some worker =>
    if env.parentKeySet = false then
      (db, [])
    else
      let lamports : ℚ := 1000000000 * ((worker.locked_amount : Int) : ℚ) / TD
      match recoverPrivateKey env.threshold env.combineDecode env.fetched with
      | .insufficientShares => (db, [])
      | .corruptShare => (db, [])
      | .ok _ =>
        let t : Transfer := { toAddress := worker.address, lamports := lamports }
        match env.send with
        | .err _ => (db, [t])
        | .ok sig =>
          let db' := updateWorker db workerId (fun u =>
            { u with locked_amount := u.locked_amount - worker.locked_amount })
          ({ db' with
             payouts := db'.payouts ++
               [{ worker_id := workerId, amount := worker.locked_amount,
                  status := .Success, signature := sig }] }, [t])

/-- The locked balance the store currently records for a worker. -/
def lockedOf (db : DB) (workerId : Nat) : Option Int :=
  (findWorker db workerId).map (·.locked_amount)

/-- The pending balance the store currently records for a worker. -/
def pendingOf (db : DB) (workerId : Nat) : Option Int :=
  (findWorker db workerId).map (·.pending_amount)

lemma find?_map_update (l : List Worker) (workerId : Nat) (f : Worker → Worker)
    (hf : ∀ w, (f w).id = w.id) :
    (l.map (fun w => if w.id == workerId then f w else w)).find? (fun w => w.id == workerId)
      = (l.find? (fun w => w.id == workerId)).map f := by
  induction l with
  | nil => rfl
  | cons w l ih =>
    by_cases h : w.id = workerId
    · have hfw : (f w).id == workerId := by simp [hf, h]
      simp [List.find?, h, hfw]
    · have hw : (w.id == workerId) = false := by simp [h]
      simp only [List.map_cons, List.find?, hw, if_neg (by simpa using h)]
      simpa [hw] using ih

lemma findWorker_updateWorker (db : DB) (workerId : Nat) (f : Worker → Worker)
    (hf : ∀ w, (f w).id = w.id) :
    findWorker (updateWorker db workerId f) workerId
      = (findWorker db workerId).map f :=
  find?_map_update db.workers workerId f hf

/-- C1 (amended): for every worker that exists and whose pending amount meets
the 3000-unit minimum, the lock endpoint decrements `pending_amount` by the
full pending amount, increments `locked_amount` by the same amount, enqueues
the job, and returns the new `locked_amount` divided by the conversion factor
(the amount expressed in SOL), not the raw `locked_amount`. -/
theorem c1_lock_moves_full_pending (TD : ℚ) (db : DB) (queue : List Nat)
    (workerId : Nat) (w : Worker) (hw : findWorker db workerId = some w)
    (hmin : ¬ w.pending_amount < 3000) :
    (postPayout TD db queue workerId).2.2
        = .locked (((w.locked_amount + w.pending_amount : Int) : ℚ) / TD)
    ∧ (postPayout TD db queue workerId).2.1 = queue ++ [workerId]
    ∧ pendingOf (postPayout TD db queue workerId).1 workerId = some 0
    ∧ lockedOf (postPayout TD db queue workerId).1 workerId
        = some (w.locked_amount + w.pending_amount) := by
  have hupd := findWorker_updateWorker db workerId
    (fun u => { u with
      pending_amount := u.pending_amount - w.pending_amount,
      locked_amount := u.locked_amount + w.pending_amount })
    (fun u => rfl)
  refine ⟨?_, ?_, ?_, ?_⟩
  · simp [postPayout, hw, if_neg hmin]
  · simp [postPayout, hw, if_neg hmin]
  · simp [pendingOf, postPayout, hw, if_neg hmin, hupd]
  · simp [lockedOf, postPayout, hw, if_neg hmin, hupd]

/-- C1 witness: Scenario A — a worker with `pending_amount = 5000` and
`locked_amount = 0` ends with `pending_amount = 0` and `locked_amount = 5000`,
the job is enqueued, and the response carries `5000 / TOTAL_DECIMALS`. -/
theorem c1_lock_moves_full_pending_witness :
    (postPayout TOTAL_DECIMALS
        { workers := [{ id := 1, address := "w1", pending_amount := 5000,
                        locked_amount := 0 }], payouts := [] } [] 1).2.2
        = .locked ((((0 : Int) + 5000 : Int) : ℚ) / TOTAL_DECIMALS)
    ∧ (postPayout TOTAL_DECIMALS
        { workers := [{ id := 1, address := "w1", pending_amount := 5000,
                        locked_amount := 0 }], payouts := [] } [] 1).2.1 = [] ++ [1]
    ∧ pendingOf (postPayout TOTAL_DECIMALS
        { workers := [{ id := 1, address := "w1", pending_amount := 5000,
                        locked_amount := 0 }], payouts := [] } [] 1).1 1 = some 0
    ∧ lockedOf (postPayout TOTAL_DECIMALS
        { workers := [{ id := 1, address := "w1", pending_amount := 5000,
                        locked_amount := 0 }], payouts := [] } [] 1).1 1
        = some ((0 : Int) + 5000) :=
  c1_lock_moves_full_pending TOTAL_DECIMALS
    { workers := [{ id := 1, address := "w1", pending_amount := 5000,
                    locked_amount := 0 }], payouts := [] } [] 1
    { id := 1, address := "w1", pending_amount := 5000, locked_amount := 0 }
    (by decide) (by decide)

/-- C1 counterexample: with the configured conversion factor the lock
endpoint's response for Scenario A is `5000 / 100000 = 1/20` SOL, not the new
`locked_amount` 5000, so the claim's "returns the new locked_amount" fails as
stated. -/
theorem c1_counterexample :
    (postPayout TOTAL_DECIMALS
        { workers := [{ id := 1, address := "w1", pending_amount := 5000,
                        locked_amount := 0 }], payouts := [] } [] 1).2.2
        = .locked (1 / 20)
    ∧ (postPayout TOTAL_DECIMALS
        { workers := [{ id := 1, address := "w1", pending_amount := 5000,
                        locked_amount := 0 }], payouts := [] } [] 1).2.2
        ≠ .locked ((5000 : ℚ)) := by
  have h : (postPayout TOTAL_DECIMALS
      { workers := [{ id := 1, address := "w1", pending_amount := 5000,
                      locked_amount := 0 }], payouts := [] } [] 1).2.2
      = .locked (1 / 20) := by
    show LockResult.locked (((0 + 5000 : Int) : ℚ) / TOTAL_DECIMALS) = .locked (1 / 20)
    norm_num [TOTAL_DECIMALS]
  refine ⟨h, ?_⟩
  rw [h]
  intro hc
  rw [LockResult.locked.injEq] at hc
  norm_num at hc

/-- C2: the lock endpoint fails with `NotFound` when the worker does not
exist and with `InsufficientBalance` when `pending_amount` is below the
3000-unit minimum; in either case the store and the payout queue are returned
unchanged, so balances are untouched and no settlement job is enqueued. -/
theorem c2_lock_failure_leaves_state (TD : ℚ) (db : DB) (queue : List Nat)
    (workerId : Nat) :
    (findWorker db workerId = none →
      postPayout TD db queue workerId = (db, queue, .notFound))
    ∧ (∀ w : Worker, findWorker db workerId = some w → w.pending_amount < 3000 →
      postPayout TD db queue workerId = (db, queue, .insufficientBalance)) := by
  constructor
  · intro hn
    simp [postPayout, hn]
  · intro w hw hlt
    simp [postPayout, hw, if_pos hlt]

/-- C2 witness: Scenario B — a store holding only worker 1 with
`pending_amount = 1000`: locking worker 2 fails with `NotFound`, locking
worker 1 fails with `InsufficientBalance`, and in both cases the store and
queue come back unchanged. -/
theorem c2_lock_failure_leaves_state_witness :
    postPayout TOTAL_DECIMALS
        { workers := [{ id := 1, address := "w1", pending_amount := 1000,
                        locked_amount := 0 }], payouts := [] } [] 2
      = ({ workers := [{ id := 1, address := "w1", pending_amount := 1000,
                         locked_amount := 0 }], payouts := [] }, [], .notFound)
    ∧ postPayout TOTAL_DECIMALS
        { workers := [{ id := 1, address := "w1", pending_amount := 1000,
                        locked_amount := 0 }], payouts := [] } [] 1
      = ({ workers := [{ id := 1, address := "w1", pending_amount := 1000,
                         locked_amount := 0 }], payouts := [] }, [], .insufficientBalance) :=
  ⟨(c2_lock_failure_leaves_state TOTAL_DECIMALS
      { workers := [{ id := 1, address := "w1", pending_amount := 1000,
                      locked_amount := 0 }], payouts := [] } [] 2).1 (by decide),
   (c2_lock_failure_leaves_state TOTAL_DECIMALS
      { workers := [{ id := 1, address := "w1", pending_amount := 1000,
                      locked_amount := 0 }], payouts := [] } [] 1).2
      { id := 1, address := "w1", pending_amount := 1000, locked_amount := 0 }
      (by decide) (by decide)⟩

lemma process_Queue_success (TD : ℚ) (env : Env) (db : DB) (workerId : Nat)
    (w : Worker) (sig : String)
    (hw : findWorker db workerId = some w)
    (hpk : env.parentKeySet = true)
    (hrec : recoverPrivateKey env.threshold env.combineDecode env.fetched = .ok ())
    (hsend : env.send = .ok sig) :
    process_Queue TD env db workerId =
      ({ workers := db.workers.map (fun u =>
            if u.id == workerId then
              { u with locked_amount := u.locked_amount - w.locked_amount }
            else u),
         payouts := db.payouts ++
           [{ worker_id := workerId, amount := w.locked_amount,
              status := .Success, signature := sig }] },
       [{ toAddress := w.address,
          lamports := 1000000000 * ((w.locked_amount : Int) : ℚ) / TD }]) := by
  simp [process_Queue, hw, hpk, hrec, hsend, updateWorker]

/-- C3 (amended): `process_Queue` has no signature-based idempotency guard.
Replaying the same settlement job decrements `locked_amount` only once in
effect — the second run decrements by the now-zero locked amount, so the
balance stays at 0 — but the replay does not leave the ledger unchanged: it
appends a second `Success` payout record with amount 0. -/
theorem c3_replay_appends_second_record (TD : ℚ) (env : Env) (db : DB)
    (workerId : Nat) (w : Worker) (sig : String)
    (hw : findWorker db workerId = some w)
    (hpk : env.parentKeySet = true)
    (hrec : recoverPrivateKey env.threshold env.combineDecode env.fetched = .ok ())
    (hsend : env.send = .ok sig) :
    lockedOf (process_Queue TD env db workerId).1 workerId = some 0
    ∧ (process_Queue TD env db workerId).1.payouts
        = db.payouts ++ [{ worker_id := workerId, amount := w.locked_amount,
                           status := .Success, signature := sig }]
    ∧ lockedOf (process_Queue TD env (process_Queue TD env db workerId).1 workerId).1
        workerId = some 0
    ∧ (process_Queue TD env (process_Queue TD env db workerId).1 workerId).1.payouts
        = (process_Queue TD env db workerId).1.payouts ++
            [{ worker_id := workerId, amount := 0,
               status := .Success, signature := sig }] := by
  have e1 := process_Queue_success TD env db workerId w sig hw hpk hrec hsend
  have hw1 : findWorker (process_Queue TD env db workerId).1 workerId
      = some { w with locked_amount := w.locked_amount - w.locked_amount } := by
    rw [e1]
    show (db.workers.map _).find? _ = _
    rw [find?_map_update db.workers workerId
      (fun u => { u with locked_amount := u.locked_amount - w.locked_amount })
      (fun u => rfl)]
    rw [show db.workers.find? (fun u => u.id == workerId) = some w from hw]
    rfl
  have e2 := process_Queue_success TD env (process_Queue TD env db workerId).1 workerId
    { w with locked_amount := w.locked_amount - w.locked_amount } sig hw1 hpk hrec hsend
  refine ⟨?_, ?_, ?_, ?_⟩
  · rw [lockedOf, hw1]
    simp
  · rw [e1]
  · have hw2 := findWorker_updateWorker (process_Queue TD env db workerId).1 workerId
      (fun u => { u with locked_amount :=
        u.locked_amount - (w.locked_amount - w.locked_amount) }) (fun u => rfl)
    rw [lockedOf]
    rw [e2]
    show ((findWorker (updateWorker (process_Queue TD env db workerId).1 workerId _)
      workerId).map _) = _
    rw [hw2, hw1]
    simp
  · rw [e2]
    simp

/-- Concrete redelivery scenario for C3: one worker with 5000 locked units,
all external steps succeeding with signature SIG1. -/
def dbScenarioE : DB :=
  { workers := [{ id := 1, address := "w1", pending_amount := 0,
                  locked_amount := 5000 }], payouts := [] }

/-- External world for the C3 scenario: parent key configured, three
fragments fetched against threshold 3, recovery succeeding, submission
returning SIG1. -/
def envScenarioE : Env :=
  { parentKeySet := true, threshold := 3, fetched := [[1], [2], [3]],
    combineDecode := fun _ => some (), send := .ok "SIG1" }

/-- C3 witness: running the concrete redelivery scenario through the amended
theorem — the first run zeroes the locked balance and appends one `Success`
record of amount 5000; the replay keeps the balance at 0 and appends a second
`Success` record of amount 0. -/
theorem c3_replay_appends_second_record_witness :
    lockedOf (process_Queue TOTAL_DECIMALS envScenarioE dbScenarioE 1).1 1 = some 0
    ∧ (process_Queue TOTAL_DECIMALS envScenarioE dbScenarioE 1).1.payouts
        = dbScenarioE.payouts ++ [{ worker_id := 1, amount := 5000,
                                    status := .Success, signature := "SIG1" }]
    ∧ lockedOf (process_Queue TOTAL_DECIMALS envScenarioE
        (process_Queue TOTAL_DECIMALS envScenarioE dbScenarioE 1).1 1).1 1 = some 0
    ∧ (process_Queue TOTAL_DECIMALS envScenarioE
        (process_Queue TOTAL_DECIMALS envScenarioE dbScenarioE 1).1 1).1.payouts
        = (process_Queue TOTAL_DECIMALS envScenarioE dbScenarioE 1).1.payouts ++
            [{ worker_id := 1, amount := 0, status := .Success, signature := "SIG1" }] :=
  c3_replay_appends_second_record TOTAL_DECIMALS envScenarioE dbScenarioE 1
    { id := 1, address := "w1", pending_amount := 0, locked_amount := 5000 }
    "SIG1" (by decide) (by decide) (by decide) (by decide)

/-- C3 counterexample: processing the same settlement job twice does not
leave the ledger state unchanged on the replay — the store after the second
run differs from the store after the first run (it holds two payout records
instead of one). -/
theorem c3_counterexample :
    (process_Queue TOTAL_DECIMALS envScenarioE
        (process_Queue TOTAL_DECIMALS envScenarioE dbScenarioE 1).1 1).1
      ≠ (process_Queue TOTAL_DECIMALS envScenarioE dbScenarioE 1).1
    ∧ (process_Queue TOTAL_DECIMALS envScenarioE
        (process_Queue TOTAL_DECIMALS envScenarioE dbScenarioE 1).1 1).1.payouts.length = 2
    ∧ (process_Queue TOTAL_DECIMALS envScenarioE dbScenarioE 1).1.payouts.length = 1 := by
  refine ⟨by decide, by decide, by decide⟩

/-- C4 (amended): a failure at any pipeline stage — worker not found, parent
key unset, share reconstruction failure, or submission failure — aborts the
job without crashing (the catch block only logs), and returns the store
exactly as it was: the worker's `locked_amount` is unchanged and no payout
record of any status is appended.  Contrary to the claim, no `Failed`
record is written. -/
theorem c4_failure_leaves_store_untouched (TD : ℚ) (env : Env) (db : DB)
    (workerId : Nat)
    (hfail : findWorker db workerId = none
      ∨ env.parentKeySet = false
      ∨ recoverPrivateKey env.threshold env.combineDecode env.fetched
          = .insufficientShares
      ∨ recoverPrivateKey env.threshold env.combineDecode env.fetched
          = .corruptShare
      ∨ ∃ m, env.send = .err m) :
    (process_Queue TD env db workerId).1 = db := by
  rcases hfail with h | h | h | h | ⟨m, h⟩ <;>
    cases hfw : findWorker db workerId <;>
    cases hpk : env.parentKeySet <;>
    cases hrec : recoverPrivateKey env.threshold env.combineDecode env.fetched <;>
    cases hsd : env.send <;>
    simp_all [process_Queue]

/-- Scenario D store for C4: one worker with 5000 locked units and an empty
payout history. -/
def dbScenarioD : DB :=
  { workers := [{ id := 1, address := "w1", pending_amount := 0,
                  locked_amount := 5000 }], payouts := [] }

/-- Scenario D environment for C4: threshold 3 but only one fragment fetched
(four of the five endpoints unreachable), so reconstruction fails with
InsufficientShares. -/
def envScenarioD : Env :=
  { parentKeySet := true, threshold := 3, fetched := [[1]],
    combineDecode := fun _ => some (), send := .ok "SIG1" }

/-- C4 witness: in Scenario D (one fragment against threshold 3) the job
aborts and the store comes back identical — `locked_amount` still 5000 and
the payout table untouched. -/
theorem c4_failure_leaves_store_untouched_witness :
    (process_Queue TOTAL_DECIMALS envScenarioD dbScenarioD 1).1 = dbScenarioD :=
  c4_failure_leaves_store_untouched TOTAL_DECIMALS envScenarioD dbScenarioD 1
    (Or.inr (Or.inr (Or.inl (by decide))))

/-- C4 counterexample: in Scenario D the failed job appends no payout record
at all — the payout table stays empty and in particular no record with status
`Failed` exists, contradicting the claim that a `Failed` record is appended
for the job. -/
theorem c4_counterexample :
    (process_Queue TOTAL_DECIMALS envScenarioD dbScenarioD 1).1.payouts = []
    ∧ lockedOf (process_Queue TOTAL_DECIMALS envScenarioD dbScenarioD 1).1 1 = some 5000
    ∧ ∀ p ∈ (process_Queue TOTAL_DECIMALS envScenarioD dbScenarioD 1).1.payouts,
        p.status ≠ PayoutStatus.Failed := by
  refine ⟨by decide, by decide, by decide⟩

/-- C6: `recoverPrivateKey` rejects a share array shorter than the configured
threshold with the InsufficientShares error, turns a combine/decode failure
into the CorruptShare error, returns the keypair otherwise, and whenever it
fails inside `process_Queue` the job aborts with the store unchanged and no
ledger transaction attempted. -/
theorem c6_recover_error_paths {σ κ : Type} (THRESHOLD : Nat)
    (combineDecode : List σ → Option κ)
    (few bad good : List σ) (kp : κ)
    (hfew : few.length < THRESHOLD)
    (hbadlen : ¬ bad.length < THRESHOLD) (hbad : combineDecode bad = none)
    (hgoodlen : ¬ good.length < THRESHOLD) (hgood : combineDecode good = some kp)
    (TD : ℚ) (env : Env) (db : DB) (workerId : Nat)
    (henvfail : recoverPrivateKey env.threshold env.combineDecode env.fetched
        = .insufficientShares
      ∨ recoverPrivateKey env.threshold env.combineDecode env.fetched
        = .corruptShare) :
    recoverPrivateKey THRESHOLD combineDecode few = .insufficientShares
    ∧ recoverPrivateKey THRESHOLD combineDecode bad = .corruptShare
    ∧ recoverPrivateKey THRESHOLD combineDecode good = .ok kp
    ∧ process_Queue TD env db workerId = (db, []) := by
  refine ⟨by simp [recoverPrivateKey, hfew],
          by simp [recoverPrivateKey, hbadlen, hbad],
          by simp [recoverPrivateKey, hgoodlen, hgood], ?_⟩
  cases hfw : findWorker db workerId <;>
    cases hpk : env.parentKeySet <;>
    rcases henvfail with h | h <;>
    simp_all [process_Queue]

/-- C6 witness: threshold 3 with a length-based decoder — one share is
rejected as InsufficientShares, four shares that fail to decode yield
CorruptShare, three decodable shares yield the keypair, and a job whose fetch
collected only two fragments aborts before any submission. -/
theorem c6_recover_error_paths_witness :
    recoverPrivateKey 3 (fun l : List (List Int) => if l.length = 3 then some () else none)
        [[1]] = .insufficientShares
    ∧ recoverPrivateKey 3 (fun l : List (List Int) => if l.length = 3 then some () else none)
        [[1], [2], [3], [4]] = .corruptShare
    ∧ recoverPrivateKey 3 (fun l : List (List Int) => if l.length = 3 then some () else none)
        [[1], [2], [3]] = .ok ()
    ∧ process_Queue TOTAL_DECIMALS
        { parentKeySet := true, threshold := 3, fetched := [[5], [6]],
          combineDecode := fun _ => none, send := .ok "S" }
        { workers := [{ id := 1, address := "w1", pending_amount := 0,
                        locked_amount := 4000 }], payouts := [] } 1
      = ({ workers := [{ id := 1, address := "w1", pending_amount := 0,
                         locked_amount := 4000 }], payouts := [] }, []) :=
  c6_recover_error_paths 3
    (fun l : List (List Int) => if l.length = 3 then some () else none)
    [[1]] [[1], [2], [3], [4]] [[1], [2], [3]] ()
    (by decide) (by decide) (by decide) (by decide) (by decide)
    TOTAL_DECIMALS
    { parentKeySet := true, threshold := 3, fetched := [[5], [6]],
      combineDecode := fun _ => none, send := .ok "S" }
    { workers := [{ id := 1, address := "w1", pending_amount := 0,
                    locked_amount := 4000 }], payouts := [] } 1
    (Or.inl (by decide))

/-- C8: whenever a settlement job reaches submission, the transfer handed to
the ledger moves `1000000000 * locked_amount / TOTAL_DECIMALS` lamports to
the worker's registered address, where `locked_amount` is the worker's locked
balance as read by the job. -/
theorem c8_transfer_amount (TD : ℚ) (env : Env) (db : DB) (workerId : Nat)
    (w : Worker) (sig : String)
    (hw : findWorker db workerId = some w)
    (hpk : env.parentKeySet = true)
    (hrec : recoverPrivateKey env.threshold env.combineDecode env.fetched = .ok ())
    (hsend : env.send = .ok sig) :
    (process_Queue TD env db workerId).2
      = [{ toAddress := w.address,
           lamports := 1000000000 * ((w.locked_amount : Int) : ℚ) / TD }] := by
  rw [process_Queue_success TD env db workerId w sig hw hpk hrec hsend]

/-- C8 witness: with 5000 locked units and the configured conversion factor
the job submits a single transfer of 1000000000 * 5000 / TOTAL_DECIMALS
(= 50000000) lamports to the worker's address. -/
theorem c8_transfer_amount_witness :
    (process_Queue TOTAL_DECIMALS
        { parentKeySet := true, threshold := 3, fetched := [[1], [2], [3]],
          combineDecode := fun _ => some (), send := .ok "SIG8" }
        { workers := [{ id := 1, address := "w8", pending_amount := 0,
                        locked_amount := 5000 }], payouts := [] } 1).2
      = [{ toAddress := "w8",
           lamports := 1000000000 * (((5000 : Int)) : ℚ) / TOTAL_DECIMALS }]
    ∧ (1000000000 * (((5000 : Int)) : ℚ) / TOTAL_DECIMALS) = 50000000 :=
  ⟨c8_transfer_amount TOTAL_DECIMALS
      { parentKeySet := true, threshold := 3, fetched := [[1], [2], [3]],
        combineDecode := fun _ => some (), send := .ok "SIG8" }
      { workers := [{ id := 1, address := "w8", pending_amount := 0,
                      locked_amount := 5000 }], payouts := [] } 1
      { id := 1, address := "w8", pending_amount := 0, locked_amount := 5000 }
      "SIG8" (by decide) (by decide) (by decide) (by decide),
   by norm_num [TOTAL_DECIMALS]⟩

/-- The JSON body of `router.get("/balance")`. -/
structure BalanceResponse where
  pendingAmount : Option Int
  lockedAmount : Option Int
deriving DecidableEq

/-- Model of `router.get("/balance")` from `src/unnamed/part_000` lines 203–216: reads
the worker with `findFirst` and responds with
`{ pendingAmount: worker?.pending_amount, lockedAmount: worker?.pending_amount }`
— the code fills the `lockedAmount` field from `pending_amount` as well.  The
handler performs no write; the store is returned unchanged. -/
def getBalance (db : DB) (userId : Nat) : BalanceResponse × DB :=
  ({ pendingAmount := (findWorker db userId).map (·.pending_amount),
     lockedAmount := (findWorker db userId).map (·.pending_amount) }, db)

/-- C9: evaluating the balance endpoint at a worker with
`pending_amount = 1000` and `locked_amount = 500` — the response reports
`lockedAmount = 1000` (the pending amount), not the stored locked amount 500,
although the read itself mutates nothing. -/
theorem c9_balance_returns_pending_twice :
    (getBalance { workers := [{ id := 1, address := "w1", pending_amount := 1000,
                                locked_amount := 500 }], payouts := [] } 1).1
      = { pendingAmount := some 1000, lockedAmount := some 1000 }
    ∧ lockedOf { workers := [{ id := 1, address := "w1", pending_amount := 1000,
                               locked_amount := 500 }], payouts := [] } 1 = some 500
    ∧ (getBalance { workers := [{ id := 1, address := "w1", pending_amount := 1000,
                                  locked_amount := 500 }], payouts := [] } 1).1.lockedAmount
        ≠ some 500
    ∧ (getBalance { workers := [{ id := 1, address := "w1", pending_amount := 1000,
                                  locked_amount := 500 }], payouts := [] } 1).2
        = { workers := [{ id := 1, address := "w1", pending_amount := 1000,
                          locked_amount := 500 }], payouts := [] } := by
  refine ⟨by decide, by decide, by decide, by decide⟩

/-- The fields of the `/me` response that the settlement core computes. -/
structure MeResponse where
  locked : ℚ
  amount : ℚ
  earning : ℚ
deriving DecidableEq

/-- Model of `router.get("/me")` from `src/unnamed/part_000` lines 304–328: 404 when
the worker is missing; otherwise fetch all of the worker's payout rows
(no status filter), accumulate `totalEarning` over their amounts with
`forEach`, and respond with `locked_amount / TOTAL_DECIMALS`,
`pending_amount / TOTAL_DECIMALS` and `totalEarning / TOTAL_DECIMALS`. -/
def getMe (TD : ℚ) (db : DB) (userId : Nat) : Option MeResponse :=
  match findWorker db userId with
  | none => none
  | some u =>
    let payouts := db.payouts.filter (fun p => p.worker_id == userId)
    let totalEarning : Int := (payouts.map (·.amount)).sum
    some { locked := ((u.locked_amount : Int) : ℚ) / TD,
           amount := ((u.pending_amount : Int) : ℚ) / TD,
           earning := ((totalEarning : Int) : ℚ) / TD }

/-- C10: for an existing worker the `/me` endpoint reports as total earning
the sum of the amounts of all of that worker's payout records divided by
`TOTAL_DECIMALS`; the status of the records is never consulted (remapping
every status leaves the figure unchanged), and appending a record with status
`Failed` for the worker raises the reported earning by its amount. -/
theorem c10_me_earning_ignores_status (TD : ℚ) (db : DB) (userId : Nat)
    (u : Worker) (hu : findWorker db userId = some u)
    (f : PayoutStatus → PayoutStatus) (r : Payout)
    (hr : r.worker_id = userId) (_hrs : r.status = PayoutStatus.Failed) :
    (getMe TD db userId).map (·.earning)
      = some (((((db.payouts.filter (fun p => p.worker_id == userId)).map
            (·.amount)).sum : Int) : ℚ) / TD)
    ∧ (getMe TD { db with payouts := db.payouts.map (fun p => { p with status := f p.status }) } userId).map (·.earning)
        = (getMe TD db userId).map (·.earning)
    ∧ (getMe TD { db with payouts := db.payouts ++ [r] } userId).map (·.earning)
        = some ((((((db.payouts.filter (fun p => p.worker_id == userId)).map
              (·.amount)).sum + r.amount : Int) : ℚ) / TD)) := by
  have hu' : findWorker { db with payouts := db.payouts.map (fun p => { p with status := f p.status }) } userId = some u := hu
  have hu'' : findWorker { db with payouts := db.payouts ++ [r] } userId = some u := hu
  refine ⟨?_, ?_, ?_⟩
  · simp [getMe, hu]
  · simp only [getMe, hu, hu', List.filter_map, List.map_map]
    rfl
  · simp [getMe, hu, hu'', List.filter_append, hr]

/-- Concrete store for the C10 witness: worker 1 with one `Success` record of
300, one `Failed` record of 200, and an unrelated record for worker 2. -/
def dbScenarioMe : DB :=
  { workers := [{ id := 1, address := "w1", pending_amount := 40,
                  locked_amount := 60 }],
    payouts := [{ worker_id := 1, amount := 300, status := .Success, signature := "a" },
                { worker_id := 1, amount := 200, status := .Failed, signature := "b" },
                { worker_id := 2, amount := 999, status := .Success, signature := "c" }] }

/-- Extra `Failed` record appended in the C10 witness. -/
def extraFailedRecord : Payout :=
  { worker_id := 1, amount := 700, status := .Failed, signature := "d" }

/-- C10 witness: on the concrete store the reported earning is the sum over
all of worker 1's records — the 200-unit `Failed` record included — divided
by the conversion factor; remapping every status to `Failed` changes nothing,
and appending a further `Failed` record of 700 adds 700 to the sum. -/
theorem c10_me_earning_ignores_status_witness :
    (getMe TOTAL_DECIMALS dbScenarioMe 1).map (·.earning)
      = some (((((dbScenarioMe.payouts.filter (fun p => p.worker_id == 1)).map
            (·.amount)).sum : Int) : ℚ) / TOTAL_DECIMALS)
    ∧ (getMe TOTAL_DECIMALS { dbScenarioMe with payouts := dbScenarioMe.payouts.map (fun p => { p with status := (fun _ => PayoutStatus.Failed) p.status }) } 1).map (·.earning)
        = (getMe TOTAL_DECIMALS dbScenarioMe 1).map (·.earning)
    ∧ (getMe TOTAL_DECIMALS { dbScenarioMe with payouts := dbScenarioMe.payouts ++ [extraFailedRecord] } 1).map (·.earning)
        = some ((((((dbScenarioMe.payouts.filter (fun p => p.worker_id == 1)).map
              (·.amount)).sum + extraFailedRecord.amount : Int) : ℚ) / TOTAL_DECIMALS)) :=
  c10_me_earning_ignores_status TOTAL_DECIMALS dbScenarioMe 1
    { id := 1, address := "w1", pending_amount := 40, locked_amount := 60 }
    (by decide) (fun _ => PayoutStatus.Failed) extraFailedRecord
    (by decide) (by decide)

/-- What one share endpoint request produces: a thrown network error (caught
and logged by the `.catch` on line 55 of recoverPrivateKey.ts), or a response
whose `data.share` field may be absent. -/
inductive FetchResult
  | netError (msg : String)
  | ok (share : Option String)
deriving DecidableEq

/-- The ECMAScript `Number` conversion applied to one comma-separated piece,
modelled on the integer strings the share endpoints actually serve
(`new Uint8Array(share).toString()` in createShares.ts); a non-numeric piece,
which `Number` would turn into NaN, is modelled by the placeholder 0 — no
claim inspects the numeric value of a fragment. -/
def jsNumber (s : String) : Int := s.toInt?.getD 0

/-- Model of `share.split(",").map(Number)` from recoverPrivateKey.ts line 51. -/
def parseShare (s : String) : List Int := (s.splitOn ",").map jsNumber

/-- The guard on lines 50–53: a fragment is collected only when the request
succeeded and `res.data.share` is truthy (present and non-empty). -/
def extractShare : FetchResult → Option String
  | .netError _ => none
  | .ok none => none
  | .ok (some s) => if s = "" then none else some s

/-- Model of `fetchShares` from `src/backend/src/sss/recoverPrivateKey.ts` lines
42–62: issue one request per configured endpoint
(`DISTRIBUTED_SERVER_ENDPOINTS.map`), drop every endpoint whose request
failed or returned no truthy share, parse the remaining shares, and return
them all; the function itself never throws, whatever the responses. -/
def fetchShares (resp : String → FetchResult) (endpoints : List String) :
    List (List Int) :=
  (endpoints.map resp).filterMap (fun r => (extractShare r).map parseShare)

/-- C7: `fetchShares` consults each configured endpoint exactly once and
succeeds as a whole whatever the responses: its result is exactly the parsed
fragments of the endpoints that returned a truthy share, in endpoint order;
its length is the number of such endpoints (so never more than one fragment
per endpoint — no retry); and an endpoint whose request fails contributes
nothing: appending an unreachable endpoint leaves the result unchanged. -/
theorem c7_fetch_tolerates_endpoint_failures (resp : String → FetchResult)
    (endpoints : List String) (e m : String) (he : resp e = .netError m) :
    fetchShares resp endpoints
      = endpoints.filterMap (fun ep => (extractShare (resp ep)).map parseShare)
    ∧ (fetchShares resp endpoints).length
        = endpoints.countP (fun ep => (extractShare (resp ep)).isSome)
    ∧ fetchShares resp (endpoints ++ [e]) = fetchShares resp endpoints := by
  have h1 : fetchShares resp endpoints
      = endpoints.filterMap (fun ep => (extractShare (resp ep)).map parseShare) := by
    rw [fetchShares, List.filterMap_map]
    rfl
  refine ⟨h1, ?_, ?_⟩
  · rw [h1]
    clear h1
    induction endpoints with
    | nil => rfl
    | cons ep eps ih =>
      cases h : extractShare (resp ep) <;>
        simp [List.filterMap_cons, h, List.countP_cons, ih]
  · simp [fetchShares, he, extractShare]

/-- Scenario C responses: five endpoints of which e2 and e4 are unreachable;
the remaining three each return one comma-separated fragment. -/
def respScenarioC : String → FetchResult := fun ep =>
  if ep = "e2" then .netError "unreachable"
  else if ep = "e4" then .netError "unreachable"
  else .ok (some "7,8,9")

/-- C7 witness: with five configured endpoints and two unreachable, the fetch
returns exactly the three fragments of the responding endpoints, its length
equals the count of truthy responses, and appending a further unreachable
endpoint changes nothing. -/
theorem c7_fetch_tolerates_endpoint_failures_witness :
    fetchShares respScenarioC ["e1", "e2", "e3", "e4", "e5"]
      = (["e1", "e2", "e3", "e4", "e5"] : List String).filterMap
          (fun ep => (extractShare (respScenarioC ep)).map parseShare)
    ∧ (fetchShares respScenarioC ["e1", "e2", "e3", "e4", "e5"]).length
        = (["e1", "e2", "e3", "e4", "e5"] : List String).countP
            (fun ep => (extractShare (respScenarioC ep)).isSome)
    ∧ fetchShares respScenarioC (["e1", "e2", "e3", "e4", "e5"] ++ ["e4"])
        = fetchShares respScenarioC ["e1", "e2", "e3", "e4", "e5"] :=
  c7_fetch_tolerates_endpoint_failures respScenarioC
    ["e1", "e2", "e3", "e4", "e5"] "e4" "unreachable" (by decide)

instance : Fact (Nat.Prime 257) := ⟨by norm_num⟩

/-- Modelled from the spec: the `shamirs-secret-sharing` npm package used by
`createShares.ts` and `recoverPrivateKey.ts` is an external dependency whose
source is not in `src/`.  Per spec section 4.4 and the glossary, it is a (K,N)
threshold secret-sharing scheme; we model it as textbook Shamir sharing over
the prime field `ZMod 257` (one byte-wide field element standing for one
secret byte).  `SSF` is that field. -/
abbrev SSF : Type := ZMod 257

/-- Computable field inverse on `SSF` by Fermat's little theorem
(`x ^ (257 - 2)`); agrees with the field inverse, see `ssfInv_eq`. -/
def ssfInv (x : SSF) : SSF := x ^ 255

/-- Computable field division on `SSF`; agrees with `/`, see `ssfDiv_eq`. -/
def ssfDiv (a b : SSF) : SSF := a * ssfInv b

lemma ssfInv_eq (b : SSF) : ssfInv b = b⁻¹ := by
  by_cases hb : b = 0
  · subst hb
    simp [ssfInv]
  · have h : b ^ 256 = 1 := by simpa using ZMod.pow_card_sub_one_eq_one hb
    refine eq_inv_of_mul_eq_one_left ?_
    rw [ssfInv, ← pow_succ]
    exact h

lemma ssfDiv_eq (a b : SSF) : ssfDiv a b = a / b := by
  rw [ssfDiv, ssfInv_eq, div_eq_mul_inv]

/-- The value of the degree-≤ t sharing polynomial
`secret + c 0 * x + c 1 * x^2 + …` at a point: the secret sits in the
constant term and the `c i` are the random coefficients drawn by `split`. -/
def shareValue (secret : SSF) {t : ℕ} (c : Fin t → SSF) (x : SSF) : SSF :=
  secret + ∑ i : Fin t, c i * x ^ (i.val + 1)

/-- The evaluation point of the j-th share: `createShares` numbers shares
from 1 (`const number = index + 1` in createShares.ts). -/
def shareX {N : ℕ} (j : Fin N) : SSF := ((j.val + 1 : ℕ) : SSF)

/-- Modelled from the spec: `sss.split(secret, { shares: N, threshold: t+1 })`
— the j-th of the N shares is the pair of its index point and the sharing
polynomial's value there. -/
def createShares (secret : SSF) {t N : ℕ} (c : Fin t → SSF) (j : Fin N) :
    SSF × SSF :=
  (shareX j, shareValue secret c (shareX j))

/-- Modelled from the spec: `sss.combine` — Lagrange interpolation of the
supplied share points, evaluated at 0 to recover the constant term. -/
def combineShares (pts : List (SSF × SSF)) : SSF :=
  ∑ p ∈ pts.toFinset,
    p.2 * ∏ q ∈ pts.toFinset.filter (fun q => q.1 ≠ p.1), ssfDiv q.1 (q.1 - p.1)

/-- The `try` block of `recoverPrivateKey`: combine the shares, then decode
the recovered secret into a keypair (`Keypair.fromSecretKey ∘ bs58.decode`,
abstracted as `decode`). -/
def sssCombineDecode {κ : Type} (decode : SSF → Option κ)
    (pts : List (SSF × SSF)) : Option κ :=
  decode (combineShares pts)

lemma shareX_injective {N : ℕ} (hN : N ≤ 256) :
    Function.Injective (shareX (N := N)) := by
  intro j k h
  have hj' := j.isLt
  have hk' := k.isLt
  have hj : j.val + 1 < 257 := by omega
  have hk : k.val + 1 < 257 := by omega
  have hv := congrArg ZMod.val h
  rw [shareX, shareX, ZMod.val_cast_of_lt hj, ZMod.val_cast_of_lt hk] at hv
  exact Fin.ext (by omega)

lemma list_toFinset_map {α β : Type} [DecidableEq α] [DecidableEq β]
    (l : List α) (f : α → β) : (l.map f).toFinset = l.toFinset.image f := by
  ext b
  simp

lemma sum_lagrange_basis_at_zero {ι : Type} [DecidableEq ι] (S : Finset ι)
    (v r : ι → SSF) :
    ∑ j ∈ S, r j * ∏ k ∈ S.erase j, v k / (v k - v j)
      = Polynomial.eval 0 (Lagrange.interpolate S v r) := by
  rw [Lagrange.interpolate_apply, Polynomial.eval_finset_sum]
  refine Finset.sum_congr rfl (fun j hj => ?_)
  rw [Polynomial.eval_mul, Polynomial.eval_C]
  congr 1
  rw [Lagrange.basis, Polynomial.eval_prod]
  refine Finset.prod_congr rfl (fun k hk => ?_)
  rw [Lagrange.basisDivisor]
  rw [Polynomial.eval_mul, Polynomial.eval_C, Polynomial.eval_sub,
    Polynomial.eval_X, Polynomial.eval_C]
  rw [zero_sub, ← neg_sub (v k) (v j), inv_neg, neg_mul_neg, div_eq_mul_inv]
  exact mul_comm _ _

lemma degree_sharePoly_lt (secret : SSF) {t : ℕ} (c : Fin t → SSF) :
    (Polynomial.C secret
      + ∑ i : Fin t, Polynomial.C (c i) * Polynomial.X ^ (i.val + 1)).degree
      < ((t + 1 : ℕ) : WithBot ℕ) := by
  refine lt_of_le_of_lt (Polynomial.degree_add_le _ _) ?_
  rw [max_lt_iff]
  constructor
  · exact lt_of_le_of_lt Polynomial.degree_C_le (by exact_mod_cast t.succ_pos)
  · refine lt_of_le_of_lt (Polynomial.degree_sum_le _ _) ?_
    rw [Finset.sup_lt_iff (WithBot.bot_lt_coe _)]
    intro i _
    refine lt_of_le_of_lt (Polynomial.degree_C_mul_X_pow_le _ _) ?_
    exact_mod_cast Nat.succ_lt_succ i.isLt

lemma combineShares_createShares (secret : SSF) {t N : ℕ} (c : Fin t → SSF)
    (hN : N ≤ 256) (idx : List (Fin N)) (hnd : idx.Nodup)
    (hlen : idx.length = t + 1) :
    combineShares (idx.map (createShares secret c)) = secret := by
  have hinj : Function.Injective (shareX (N := N)) := shareX_injective hN
  have hg : Function.Injective (createShares secret (N := N) c) := by
    intro a b h
    exact hinj (congrArg Prod.fst h)
  rw [combineShares, list_toFinset_map]
  rw [Finset.sum_image (fun a _ b _ h => hg h)]
  have hstep : ∀ j ∈ idx.toFinset,
      (createShares secret c j).2 *
          ∏ q ∈ (idx.toFinset.image (createShares secret c)).filter
            (fun q => q.1 ≠ (createShares secret c j).1),
            ssfDiv q.1 (q.1 - (createShares secret c j).1)
        = shareValue secret c (shareX j) *
            ∏ k ∈ idx.toFinset.erase j, shareX k / (shareX k - shareX j) := by
    intro j hj
    rw [Finset.filter_image, Finset.prod_image (fun a _ b _ h => hg h)]
    have hfe : idx.toFinset.filter
        (fun a => (createShares secret c a).1 ≠ (createShares secret c j).1)
        = idx.toFinset.erase j := by
      have h1 : idx.toFinset.filter
          (fun a => (createShares secret c a).1 ≠ (createShares secret c j).1)
          = idx.toFinset.filter (fun a => a ≠ j) :=
        Finset.filter_congr
          (fun a _ => not_congr ⟨fun h => hinj h, fun h => congrArg shareX h⟩)
      rw [h1]
      exact Finset.filter_ne' _ _
    rw [hfe]
    refine congrArg (fun z => (createShares secret c j).2 * z) ?_
    refine Finset.prod_congr rfl (fun k hk => ?_)
    exact ssfDiv_eq _ _
  rw [Finset.sum_congr rfl hstep]
  rw [sum_lagrange_basis_at_zero idx.toFinset shareX
    (fun j => shareValue secret c (shareX j))]
  have hvs : Set.InjOn shareX (↑idx.toFinset) := hinj.injOn
  have hcard : idx.toFinset.card = t + 1 := by
    rw [List.toFinset_card_of_nodup hnd, hlen]
  have hdeg : (Polynomial.C secret
      + ∑ i : Fin t, Polynomial.C (c i) * Polynomial.X ^ (i.val + 1)).degree
      < (idx.toFinset.card : WithBot ℕ) := by
    rw [hcard]
    exact degree_sharePoly_lt secret c
  have hev : ∀ i ∈ idx.toFinset,
      Polynomial.eval (shareX i) (Polynomial.C secret
        + ∑ i : Fin t, Polynomial.C (c i) * Polynomial.X ^ (i.val + 1))
      = shareValue secret c (shareX i) := by
    intro i _
    simp [shareValue, Polynomial.eval_finset_sum]
  rw [← Lagrange.eq_interpolate_of_eval_eq
    (fun j => shareValue secret c (shareX j)) hvs hdeg hev]
  simp [Polynomial.eval_finset_sum]

/-- C5: for a secret split into N shares with threshold K = t+1, combining
ANY K distinct shares recovers the secret, so `recoverPrivateKey` succeeds
and yields the same keypair regardless of which K of the N shares were
supplied; and on any share list shorter than K it fails with the
InsufficientShares error. -/
theorem c5_threshold_reconstruction (secret : SSF) {t N : ℕ} (c : Fin t → SSF)
    (hN : N ≤ 256) (idx : List (Fin N)) (hnd : idx.Nodup)
    (hlen : idx.length = t + 1) {κ : Type} (decode : SSF → Option κ) (kp : κ)
    (hdec : decode secret = some kp) (bad : List (SSF × SSF))
    (hbad : bad.length < t + 1) :
    recoverPrivateKey (t + 1) (sssCombineDecode decode)
        (idx.map (createShares secret c)) = .ok kp
    ∧ recoverPrivateKey (t + 1) (sssCombineDecode decode) bad
        = .insufficientShares := by
  constructor
  · have hlen2 : (idx.map (createShares secret c)).length = t + 1 := by
      rw [List.length_map, hlen]
    rw [recoverPrivateKey, if_neg (show ¬ _ from by rw [hlen2]; exact lt_irrefl _)]
    rw [sssCombineDecode, combineShares_createShares secret c hN idx hnd hlen, hdec]
  · rw [recoverPrivateKey, if_pos hbad]

/-- C5 witness: the secret 42 shared among N = 5 with threshold K = 2 via the
polynomial 42 + 7x — the share subset with indices 0 and 2 recovers the
keypair decoded from 42, while the single share (1, 49) is rejected with
InsufficientShares. -/
theorem c5_threshold_reconstruction_witness :
    recoverPrivateKey 2
        (sssCombineDecode (fun z : SSF => if z = 42 then some () else none))
        (([0, 2] : List (Fin 5)).map (createShares (42 : SSF) (fun _ : Fin 1 => 7)))
      = .ok ()
    ∧ recoverPrivateKey 2
        (sssCombineDecode (fun z : SSF => if z = 42 then some () else none))
        [((1 : SSF), (49 : SSF))] = .insufficientShares :=
  c5_threshold_reconstruction (42 : SSF) (fun _ : Fin 1 => 7) (by norm_num)
    ([0, 2] : List (Fin 5)) (by decide) (by decide)
    (fun z => if z = 42 then some () else none) () (by decide)
    [((1 : SSF), (49 : SSF))] (by decide)
